import Mathlib

/-!
Verification development for the valu-api client library (Roomful/valu-api).

The embedding models the current sources:
  * src/src/ValuApi.js  (third, most recent version in the file — the one whose
    line numbers the specification cites: getApi, setApplication, sendIntent,
    callService, runConsoleCommand, #handleParentMessage, ...)
  * src/src/Intent.js   (Intent value object)
  * src/unnamed/part_000 (ValuApplication lifecycle surface)
  * src/unnamed/part_001 (EventEmitter)
  * src/unnamed/part_002 (APIPointer: postRunResult / run bookkeeping)

JavaScript runtime values that cross the message channel are modelled by the
`Value` type; `undefined` is explicit (`vUndefined`) because JS default-parameter
and truthiness semantics depend on it.  The single-threaded, cooperative
execution model of the source (plain function calls, no parallelism) is
embedded as pure state-passing functions over `ValuState`; every observable
effect (posting a message to the host, settling a promise, invoking a shell
lifecycle callback, writing a console diagnostic, a JS TypeError escaping the
handler) is recorded in order on an action trace.
-/

namespace Valu

/-- JSON-like JavaScript runtime value as it appears in channel payloads.
`vUndefined` models `undefined`. -/
inductive Value where
  | vUndefined : Value
  | vNull : Value
  | vBool : Bool → Value
  | vNat : Nat → Value
  | vStr : String → Value
  | vObj : List (String × Value) → Value

/-- Association lookup used for JS property access on object values;
a missing property reads as `undefined`. -/
def lookupField : List (String × Value) → String → Value
  | [], _ => .vUndefined
  | (k, v) :: rest, key => if k = key then v else lookupField rest key

/-- JS property access `o.k` (and the optional-chained `o?.k` as used by
`postRunResult`): a non-object base yields `undefined`. -/
def Value.getField : Value → String → Value
  | .vObj fields, key => lookupField fields key
  | _, _ => .vUndefined

/-- JS truthiness of a payload value (used by the `if (result.error)` checks). -/
def Value.truthy : Value → Bool
  | .vUndefined => false
  | .vNull => false
  | .vBool b => b
  | .vNat n => n != 0
  | .vStr s => s != ""
  | .vObj _ => true

/-- Whether a value is `undefined` (JS default parameters fire exactly then). -/
def Value.isUndefined : Value → Bool
  | .vUndefined => true
  | _ => false

/-- JS strict equality of a value against a string literal
(`message.action === 'on_route'` style switch test). -/
def Value.strEq : Value → String → Bool
  | .vStr s, t => s = t
  | _, _ => false

/-- Intent value object (src/src/Intent.js): immutable applicationId, action,
params triple.  The constructor defaults `action` to `Intent.ACTION_OPEN`
(`'open'`) and `params` to `{}` when the corresponding argument is
`undefined`, exactly as JS default parameters do. -/
structure Intent where
  applicationId : Value
  action : Value
  params : Value

/-- `new Intent(applicationId, action = 'open', params = {})`. -/
def Intent.ofArgs (applicationId action params : Value) : Intent :=
  { applicationId := applicationId
    action := if action.isUndefined then .vStr "open" else action
    params := if params.isUndefined then .vObj [] else params }

/-! ## EventEmitter (src/unnamed/part_001)

Listeners are identified by an abstract id `lid`; invoking a listener is
recorded as the pair (lid, arguments).  The callbacks of the claims under
verification do not mutate the bus during dispatch, so callback bodies are
not given state-changing power; the last-non-undefined return-value
aggregation of `emit` is likewise not modelled because every `emit` call
site in ValuApi.js discards the return value and no claim mentions it. -/

/-- One registered listener: `{callback, once}`, with the callback abstracted
to its identity. -/
structure Listener where
  lid : Nat
  once : Bool

/-- `this.#events[name] || []`. -/
def getLs : List (String × List Listener) → String → List Listener
  | [], _ => []
  | (k, v) :: rest, name => if k = name then v else getLs rest name

/-- `this.#events[name] = listeners` (property write, first binding wins the
slot; emit's in-place splice is modelled as a write of the filtered list). -/
def setLs : List (String × List Listener) → String → List Listener →
    List (String × List Listener)
  | [], name, v => [(name, v)]
  | (k, w) :: rest, name, v =>
    if k = name then (name, v) :: rest else (k, w) :: setLs rest name v

/-- The publish/subscribe registry `#events`. -/
structure EventEmitter where
  events : List (String × List Listener)

/-- `addEventListener(eventName, callback, once = false)`: appends the
listener to the slot's list; no de-duplication. -/
def EventEmitter.addEventListener (e : EventEmitter) (name : String)
    (lid : Nat) (once : Bool) : EventEmitter :=
  ⟨setLs e.events name (getLs e.events name ++ [⟨lid, once⟩])⟩

/-- `removeEventListener(eventName, callback)` (name+callback arity): removes
every listener whose callback is identical, preserving the order of the
rest (the source's reverse-index splice loop has the same effect). -/
def EventEmitter.removeEventListenerBy (e : EventEmitter) (name : String)
    (lid : Nat) : EventEmitter :=
  ⟨setLs e.events name ((getLs e.events name).filter fun l => l.lid != lid)⟩

/-- One dispatch pass of `emit` over the listeners of one event name: every
current listener fires in registration order with the given arguments, and
the listeners registered `once` are removed after the full pass (the
`onceListeners` index list spliced from highest to lowest).  Returns the
updated registry and the fired (listener, arguments) records. -/
def EventEmitter.pass1 (e : EventEmitter) (name : String) (args : List Value) :
    EventEmitter × List (Nat × List Value) :=
  let ls := getLs e.events name
  (⟨setLs e.events name (ls.filter fun l => !l.once)⟩, ls.map fun l => (l.lid, args))

/-- `emit(eventName, ...parameters)`: for the two reserved meta-event names
the single dispatch pass runs alone; otherwise the pass is wrapped by a
`__before__` and an `__after__` meta-event carrying the event name in front
of the arguments.  Returns the updated registry and the dispatch passes in
order (pass name, pass arguments, fired records). -/
def EventEmitter.emit (e : EventEmitter) (name : String) (args : List Value) :
    EventEmitter × List (String × List Value × List (Nat × List Value)) :=
  if name = "__before__" ∨ name = "__after__" then
    let (e1, f) := e.pass1 name args
    (e1, [(name, args, f)])
  else
    let (e1, f1) := e.pass1 "__before__" (.vStr name :: args)
    let (e2, f2) := e1.pass1 name args
    let (e3, f3) := e2.pass1 "__after__" (.vStr name :: args)
    (e3, [("__before__", .vStr name :: args, f1), (name, args, f2),
          ("__after__", .vStr name :: args, f3)])

/-- How many times listener `lid` fired across a list of dispatch passes. -/
def firedCount (lid : Nat) :
    List (String × List Value × List (Nat × List Value)) → Nat
  | [] => 0
  | (_, _, fired) :: rest =>
    (fired.filter fun f => f.1 = lid).length + firedCount lid rest

/-! ## ValuApi client state (src/src/ValuApi.js, current version)

Generic association-list helpers model the JS object / Map used as the
pending-request table `#requests` (bracket assignment overwrites, `delete`
removes the key, lookup of a missing key reads `undefined`). -/

/-- Lookup in an association list keyed by request identifiers. -/
def lookupA {α : Type} : List (Nat × α) → Nat → Option α
  | [], _ => none
  | (k, v) :: rest, n => if k = n then some v else lookupA rest n

/-- `table[n] = v` — overwrites an existing binding, else appends. -/
def insertA {α : Type} : List (Nat × α) → Nat → α → List (Nat × α)
  | [], n, v => [(n, v)]
  | (k, w) :: rest, n, v =>
    if k = n then (n, v) :: rest else (k, w) :: insertA rest n v

/-- `delete table[n]` — removing an absent key is a no-op. -/
def removeA {α : Type} : List (Nat × α) → Nat → List (Nat × α)
  | [], _ => []
  | (k, w) :: rest, n =>
    if k = n then removeA rest n else (k, w) :: removeA rest n

/-- The captured channel endpoint `#valuApplication = {id, source, origin}`;
`none` models the initial `{}` (disconnected). -/
structure Endpoint where
  appId : Value
  source : Nat
  origin : String

/-- One entry of the top-level `#requests` table: either a deferred waiter
(create-pointer, console, intent, service requests) or a reference to the
APIPointer that issued a function-call request. -/
inductive Pending where
  | deferredReq : Pending
  | pointerReq : Nat → Pending

/-- How a promise settled: `ok` = resolve, `err` = reject. -/
inductive PResult where
  | ok : Value → PResult
  | err : Value → PResult

/-- Mutable state of one APIPointer (src/unnamed/part_002): name, version,
guid and the per-call pending table `#apiCalls` (the set of outstanding
request identifiers; their waiters settle through the global trace). -/
structure HandleState where
  apiName : Value
  version : Value
  guid : String
  apiCalls : List Nat

/-- Outbound messages as posted by `#postToValuApp` — one constructor per
call site, mirroring the object literal each site builds. -/
inductive OutMsg where
  | createPointer : String → Value → Value → Nat → OutMsg
  | run : String → Nat → Value → Value → OutMsg
  | runIntent : Value → Value → Value → Nat → OutMsg
  | serviceIntent : Value → Value → Value → Nat → OutMsg
  | runConsole : Nat → Value → OutMsg
  | runCommand : String → Value → OutMsg

/-- Observable effects, recorded in program order. `faulted` marks a JS
TypeError escaping the handler (e.g. calling `resolve` on an entry that is
not a deferred). -/
inductive Action where
  | captureEndpoint : Nat → String → Action
  | emitPassA : String → List Value → List (Nat × List Value) → Action
  | shellOnCreate : Intent → Action
  | shellOnNewIntent : Intent → Action
  | shellOnRoute : Value → Action
  | rememberIntent : Intent → Action
  | settledP : Nat → PResult → Action
  | logged : String → Action
  | postedMsg : OutMsg → Action
  | faulted : String → Action

/-- Whole-client state: the private fields of the ValuApi instance plus the
registry of APIPointer objects it handed out and the shared id counter of
Utils.js. -/
structure ValuState where
  valuApplication : Option Endpoint
  requests : List (Nat × Pending)
  lastIntent : Option Intent
  appBound : Bool
  emitter : EventEmitter
  handles : List (Nat × HandleState)
  nextHandle : Nat
  counter : Nat
  trace : List Action

/-- State after `new ValuApi()`. -/
def ValuState.init : ValuState :=
  { valuApplication := none, requests := [], lastIntent := none,
    appBound := false, emitter := ⟨[]⟩, handles := [], nextHandle := 0,
    counter := 0, trace := [] }

/-- `connected` getter: the origin has been captured. -/
def ValuState.connected (s : ValuState) : Bool :=
  s.valuApplication.isSome

/-- Modelled from the spec: Utils.js (`nextId`, `guid4`) is not in the
snapshot; §1 of the specification assumes the identifier-generation utility
supplies unique values.  A single shared counter supplies both the numeric
request identifiers and the pointer guids. -/
def freshId (s : ValuState) : Nat × ValuState :=
  (s.counter, { s with counter := s.counter + 1 })

/-- Modelled from the spec: `guid4()` — a unique pointer id drawn from the
same assumed-unique generator. -/
def guid4 (s : ValuState) : String × ValuState :=
  ("guid-" ++ toString s.counter, { s with counter := s.counter + 1 })

/-- `#createDeferred()`: a fresh id plus a promise settled later through the
trace (`settledP id _`). -/
def createDeferred (s : ValuState) : Nat × ValuState :=
  freshId s

/-- Append helpers for the observable trace. -/
def logT (s : ValuState) (m : String) : ValuState :=
  { s with trace := s.trace ++ [.logged m] }

def faultT (s : ValuState) (note : String) : ValuState :=
  { s with trace := s.trace ++ [.faulted note] }

def settleTrace (s : ValuState) (id : Nat) (r : PResult) : ValuState :=
  { s with trace := s.trace ++ [.settledP id r] }

/-- Promise settlements in order, extracted from the trace. -/
def settledFrom : List Action → List (Nat × PResult)
  | [] => []
  | .settledP id r :: rest => (id, r) :: settledFrom rest
  | _ :: rest => settledFrom rest

def settledOf (s : ValuState) : List (Nat × PResult) :=
  settledFrom s.trace

/-- Messages posted to the host in order, extracted from the trace. -/
def postedFrom : List Action → List OutMsg
  | [] => []
  | .postedMsg m :: rest => m :: postedFrom rest
  | _ :: rest => postedFrom rest

def postedOf (s : ValuState) : List OutMsg :=
  postedFrom s.trace

/-- `#postToValuApp(name, message)`: posts through the captured endpoint;
while disconnected `#valuApplication.source` is `undefined` and the call
throws a TypeError (`none`). -/
def postToValuApp (s : ValuState) (m : OutMsg) : Option ValuState :=
  match s.valuApplication with
  | none => none
  | some _ => some { s with trace := s.trace ++ [.postedMsg m] }

/-- Outcome of one request-issuing operation: the returned promise's id, or
the async function rejecting before returning one. -/
inductive OpOutcome where
  | pending : Nat → OpOutcome
  | threw : OpOutcome

/-- `sendIntent(intent)`: deferred first, then post, and only after a
successful post is the waiter recorded in `#requests`. -/
def sendIntent (s : ValuState) (i : Intent) : ValuState × OpOutcome :=
  let (id, s1) := createDeferred s
  match postToValuApp s1 (.runIntent i.applicationId i.action i.params id) with
  | none => (s1, .threw)
  | some s2 => ({ s2 with requests := insertA s2.requests id .deferredReq }, .pending id)

/-- `callService(intent)`: same wire shape, distinct message kind. -/
def callService (s : ValuState) (i : Intent) : ValuState × OpOutcome :=
  let (id, s1) := createDeferred s
  match postToValuApp s1 (.serviceIntent i.applicationId i.action i.params id) with
  | none => (s1, .threw)
  | some s2 => ({ s2 with requests := insertA s2.requests id .deferredReq }, .pending id)

/-- `#registerApiPointer(apiName, version, guid)`: post first, record the
waiter after. -/
def registerApiPointer (s : ValuState) (apiName version : Value)
    (guid : String) : ValuState × OpOutcome :=
  let (id, s1) := createDeferred s
  match postToValuApp s1 (.createPointer guid apiName version id) with
  | none => (s1, .threw)
  | some s2 => ({ s2 with requests := insertA s2.requests id .deferredReq }, .pending id)

/-- `runConsoleCommand(command)`: note the source records the waiter in
`#requests` BEFORE posting, unlike the three operations above. -/
def runConsoleCommand (s : ValuState) (command : Value) : ValuState × OpOutcome :=
  let (id, s1) := createDeferred s
  let s2 := { s1 with requests := insertA s1.requests id .deferredReq }
  match postToValuApp s2 (.runConsole id command) with
  | none => (s2, .threw)
  | some s3 => (s3, .pending id)

/-- `#runCommand(name, data)` — fire and forget, no identifier. -/
def runCommandOp (s : ValuState) (name : String) (data : Value) :
    Option ValuState :=
  postToValuApp s (.runCommand name data)

/-- `pushRoute(path)`. -/
def pushRoute (s : ValuState) (path : Value) : Option ValuState :=
  runCommandOp s "pushRoute" path

/-- `replaceRoute(path)`. -/
def replaceRoute (s : ValuState) (path : Value) : Option ValuState :=
  runCommandOp s "replaceRoute" path

/-- `this.#eventEmitter.emit(name, ...args)` on the client's bus, with each
dispatch pass recorded on the trace. -/
def emitValu (s : ValuState) (name : String) (args : List Value) : ValuState :=
  let r := s.emitter.emit name args
  { s with emitter := r.1,
           trace := s.trace ++ r.2.map fun p => Action.emitPassA p.1 p.2.1 p.2.2 }

/-- `APIPointer.postRunResult(requestId, result)` on the handle stored at
registry index `h`: a payload whose `error` field is truthy rejects the
waiter with that error, otherwise the waiter resolves with the payload;
an identifier absent from `#apiCalls` is logged and dropped. -/
def postRunResult (s : ValuState) (h : Nat) (requestId : Nat) (result : Value) :
    ValuState :=
  match lookupA s.handles h with
  | none => s
  | some hs =>
    if hs.apiCalls.contains requestId then
      let err := result.getField "error"
      let s1 := if err.truthy then settleTrace s requestId (.err err)
                else settleTrace s requestId (.ok result)
      let hs1 := { hs with apiCalls := hs.apiCalls.erase requestId }
      { s1 with handles := insertA s1.handles h hs1 }
    else
      logT s ("Failed to postRunResult for " ++ toString requestId)

/-- `APIPointer.run(functionName, params)` followed by the
`#onApiRunRequest` callback it triggers: record the call in the handle's
`#apiCalls`, record the handle in the client's `#requests`, post `api:run`
carrying the handle's guid.  `run` is synchronous and always returns the
deferred promise; a post failure rejects only the ignored internal promise
of the async callback. -/
def runHandle (s : ValuState) (h : Nat) (functionName params : Value) :
    ValuState × OpOutcome :=
  match lookupA s.handles h with
  | none => (s, .threw)
  | some hs =>
    let (id, s1) := createDeferred s
    let hs1 := { hs with apiCalls := hs.apiCalls ++ [id] }
    let s2 := { s1 with handles := insertA s1.handles h hs1 }
    let s3 := { s2 with requests := insertA s2.requests id (.pointerReq h) }
    match postToValuApp s3 (.run hs.guid id functionName params) with
    | none => (s3, .pending id)
    | some s4 => (s4, .pending id)

/-! ## Inbound message handling (`#handleParentMessage`) -/

/-- One inbound channel event: transport envelope (`source`, `origin`) plus
the fields of `event.data` that the handler reads.  `requestId` is `none`
when the field is absent. -/
structure InEvent where
  source : Nat
  origin : String
  target : String
  name : String
  message : Value
  requestId : Option Nat

/-- The Intent the handler builds from an inbound payload:
`new Intent(message.applicationId, message.action, message.params)`. -/
def intentOf (msg : Value) : Intent :=
  Intent.ofArgs (msg.getField "applicationId") (msg.getField "action")
    (msg.getField "params")

/-- `case 'api:ready'`: capture the endpoint, emit API_READY with no
arguments, invoke the bound shell's onCreate with the launch intent, then
remember the intent for later replay. -/
def handleReady (s : ValuState) (e : InEvent) : ValuState :=
  let s1 := { s with
    valuApplication := some ⟨e.message.getField "applicationId", e.source, e.origin⟩,
    trace := s.trace ++ [.captureEndpoint e.source e.origin] }
  let s2 := emitValu s1 "api:ready" []
  let intent := intentOf e.message
  let s3 := if s2.appBound then
      { s2 with trace := s2.trace ++ [.shellOnCreate intent] }
    else s2
  { s3 with lastIntent := some intent,
            trace := s3.trace ++ [.rememberIntent intent] }

/-- `case 'api:trigger'`: only the `on_route` action is recognized; it is
republished on the bus and forwarded to the shell's router-context hook. -/
def handleTrigger (s : ValuState) (e : InEvent) : ValuState :=
  if (e.message.getField "action").strEq "on_route" then
    let d := e.message.getField "data"
    let s1 := emitValu s "on_route" [d]
    if s1.appBound then { s1 with trace := s1.trace ++ [.shellOnRoute d] }
    else s1
  else s

/-- `case 'api:new-intent'`: builds the Intent and invokes the bound shell's
onNewIntent.  The source discards the callback's return value — nothing is
posted back to the host. -/
def handleNewIntent (s : ValuState) (e : InEvent) : ValuState :=
  let intent := intentOf e.message
  if s.appBound then { s with trace := s.trace ++ [.shellOnNewIntent intent] }
  else s

/-- `case 'api:run-console-completed'`: resolve the waiter with the payload
(if present), else log; the `delete` runs in either case (a no-op when the
key is absent).  An entry that is not a deferred has no `resolve` method:
the call throws and the `delete` is never reached. -/
def handleConsoleCompleted (s : ValuState) (e : InEvent) : ValuState :=
  match e.requestId with
  | none => logT s "Failed to locate console request with Id: undefined"
  | some rid =>
    match lookupA s.requests rid with
    | some .deferredReq =>
      let s1 := settleTrace s rid (.ok e.message)
      { s1 with requests := removeA s1.requests rid }
    | some (.pointerReq _) =>
      faultT s "console reply found an APIPointer entry: resolve is not a function"
    | none =>
      let s1 := logT s ("Failed to locate console request with Id: " ++ toString rid)
      { s1 with requests := removeA s1.requests rid }

/-- `case 'api:run-completed'`: delegate settlement to the APIPointer stored
for this identifier, then free the identifier; an unknown identifier is
logged and dropped without the `delete`. -/
def handleRunCompleted (s : ValuState) (e : InEvent) : ValuState :=
  match e.requestId with
  | none => logT s "Failed to find Api Pointer for requestId: undefined"
  | some rid =>
    match lookupA s.requests rid with
    | some (.pointerReq h) =>
      let s1 := postRunResult s h rid e.message
      { s1 with requests := removeA s1.requests rid }
    | some .deferredReq =>
      faultT s "run reply found a waiter entry: postRunResult is not a function"
    | none =>
      logT s ("Failed to find Api Pointer for requestId: " ++ toString rid)

/-- `case 'api:pointer-created'`: resolve and free the identifier when
pending, else log (no `delete` on this path). -/
def handlePointerCreated (s : ValuState) (e : InEvent) : ValuState :=
  match e.requestId with
  | none => logT s "Failed to locate pointer create request with Id: undefined"
  | some rid =>
    match lookupA s.requests rid with
    | some .deferredReq =>
      let s1 := settleTrace s rid (.ok e.message)
      { s1 with requests := removeA s1.requests rid }
    | some (.pointerReq _) =>
      faultT s "pointer-created reply found an APIPointer entry: resolve is not a function"
    | none =>
      logT s ("Failed to locate pointer create request with Id: " ++ toString rid)

/-- `#handleParentMessage(event)`: messages whose target tag is not
`valuApi` are ignored before any parsing; the kind switch falls through to
a no-op for unrecognized kinds. -/
def handleParentMessage (s : ValuState) (e : InEvent) : ValuState :=
  if e.target ≠ "valuApi" then s
  else if e.name = "api:ready" then handleReady s e
  else if e.name = "api:trigger" then handleTrigger s e
  else if e.name = "api:new-intent" then handleNewIntent s e
  else if e.name = "api:run-console-completed" then handleConsoleCompleted s e
  else if e.name = "api:run-completed" then handleRunCompleted s e
  else if e.name = "api:pointer-created" then handlePointerCreated s e
  else s

/-! ## getApi round trip -/

/-- `getApi(apiName, version)` up to the `await`: generate the pointer guid,
register it (post `api:create-pointer`, then record the waiter). -/
def getApiSend (s : ValuState) (apiName version : Value) :
    ValuState × String × OpOutcome :=
  let (g, s1) := guid4 s
  let (s2, r) := registerApiPointer s1 apiName version g
  (s2, g, r)

/-- Modelled from the spec: the current APIPointer.js is not in the
snapshot — src/unnamed/part_002 holds an earlier three-argument constructor
that generated its own guid, while the current ValuApi.getApi calls
`new APIPointer(apiName, result.version, guid, runRequest)` with four
arguments.  Following spec §4.3 ("a handle's id is generated once at
registration time and is stable for its lifetime") the constructor stores
the caller-supplied guid; name, version and the empty per-call table are
stored as in the part_002 source. -/
def newAPIPointer (s : ValuState) (apiName version : Value) (guid : String) :
    ValuState × Nat :=
  let h := s.nextHandle
  ({ s with handles := insertA s.handles h ⟨apiName, version, guid, []⟩,
            nextHandle := h + 1 }, h)

/-- `getApi` after the `await` resumes with the reply payload: a truthy
`result.error` throws `new Error(result.error)`; otherwise the handle is
constructed bound to `result.version` — the host-assigned version — and to
the guid generated before the registration request. -/
def getApiResume (s : ValuState) (apiName : Value) (guid : String)
    (result : Value) : ValuState × Except Value Nat :=
  let err := result.getField "error"
  if err.truthy then (s, .error err)
  else
    let r := newAPIPointer s apiName (result.getField "version") guid
    (r.1, .ok r.2)

/-- Whole `getApi` round trip: send the registration, deliver the host's
`api:pointer-created` reply (which resolves the recorded waiter with the
payload), resume the awaiting body with that payload. -/
def getApiWithReply (s : ValuState) (apiName version reply : Value) :
    ValuState × Except Value Nat :=
  match getApiSend s apiName version with
  | (s1, g, .pending rid) =>
    let s2 := handleParentMessage s1
      ⟨0, "", "valuApi", "api:pointer-created", reply, some rid⟩
    getApiResume s2 apiName g reply
  | (s1, _, .threw) => (s1, .error .vUndefined)

/-- `setApplication(appInstance)`: binds the shell; if a launch intent was
already observed, immediately replays it through `onCreate`. -/
def setApplication (s : ValuState) : ValuState :=
  let s1 := { s with appBound := true }
  match s1.lastIntent with
  | some i => { s1 with trace := s1.trace ++ [.shellOnCreate i] }
  | none => s1

/-! ## Helper lemmas on the association-list tables -/

theorem lookupA_insertA_self {α : Type} (l : List (Nat × α)) (n : Nat) (v : α) :
    lookupA (insertA l n v) n = some v := by
  induction l with
  | nil => simp [insertA, lookupA]
  | cons kv rest ih =>
    obtain ⟨k, w⟩ := kv
    by_cases h : k = n
    · simp [insertA, h, lookupA]
    · simp [insertA, h, lookupA, ih]

theorem lookupA_insertA_ne {α : Type} (l : List (Nat × α)) (n m : Nat) (v : α)
    (h : m ≠ n) : lookupA (insertA l n v) m = lookupA l m := by
  induction l with
  | nil => simp [insertA, lookupA, Ne.symm h]
  | cons kv rest ih =>
    obtain ⟨k, w⟩ := kv
    by_cases hk : k = n
    · subst hk
      simp [insertA, lookupA, Ne.symm h]
    · by_cases hm : k = m
      · simp [insertA, hk, lookupA, hm, h]
      · simp [insertA, hk, lookupA, hm, ih]

theorem removeA_of_lookupA_none {α : Type} (l : List (Nat × α)) (n : Nat)
    (h : lookupA l n = none) : removeA l n = l := by
  induction l with
  | nil => simp [removeA]
  | cons kv rest ih =>
    obtain ⟨k, w⟩ := kv
    by_cases hk : k = n
    · simp [lookupA, hk] at h
    · simp [lookupA, hk] at h
      simp [removeA, hk, ih h]

theorem getLs_setLs_self (l : List (String × List Listener)) (n : String)
    (v : List Listener) : getLs (setLs l n v) n = v := by
  induction l with
  | nil => simp [setLs, getLs]
  | cons kv rest ih =>
    obtain ⟨k, w⟩ := kv
    by_cases h : k = n
    · simp [setLs, h, getLs]
    · simp [setLs, h, getLs, ih]

theorem getLs_setLs_ne (l : List (String × List Listener)) (n m : String)
    (v : List Listener) (h : m ≠ n) : getLs (setLs l n v) m = getLs l m := by
  induction l with
  | nil => simp [setLs, getLs, Ne.symm h]
  | cons kv rest ih =>
    obtain ⟨k, w⟩ := kv
    by_cases hk : k = n
    · subst hk
      simp [setLs, getLs, Ne.symm h]
    · by_cases hm : k = m
      · simp [setLs, hk, getLs, hm, h]
      · simp [setLs, hk, getLs, hm, ih]

theorem lookupA_removeA_self {α : Type} (l : List (Nat × α)) (n : Nat) :
    lookupA (removeA l n) n = none := by
  induction l with
  | nil => rfl
  | cons kv rest ih =>
    obtain ⟨k, w⟩ := kv
    by_cases hk : k = n
    · simp [removeA, hk, ih]
    · simp [removeA, hk, lookupA, ih]

theorem settledFrom_append (a b : List Action) :
    settledFrom (a ++ b) = settledFrom a ++ settledFrom b := by
  induction a with
  | nil => rfl
  | cons x rest ih => cases x <;> simp [settledFrom, ih]

theorem postedFrom_append (a b : List Action) :
    postedFrom (a ++ b) = postedFrom a ++ postedFrom b := by
  induction a with
  | nil => rfl
  | cons x rest ih => cases x <;> simp [postedFrom, ih]

/-! ## C8 — one-shot listeners fire exactly once -/

/-- C8: registering listener L on event "e" with once=true on a fresh bus
and publishing "e" twice invokes L exactly once — it fires during the first
publish, is removed after that dispatch pass, and the second publish does
not invoke it. -/
theorem C8_once_listener_fires_exactly_once (name : String) (lid : Nat) :
    firedCount lid ((EventEmitter.addEventListener ⟨[]⟩ name lid true).emit name []).2 = 1 ∧
    firedCount lid
      ((((EventEmitter.addEventListener ⟨[]⟩ name lid true).emit name []).1).emit name []).2 = 0 := by
  by_cases hb : name = "__before__"
  · subst hb
    simp [EventEmitter.addEventListener, EventEmitter.emit, EventEmitter.pass1,
      getLs, setLs, firedCount]
  · by_cases ha : name = "__after__"
    · subst ha
      simp [EventEmitter.addEventListener, EventEmitter.emit, EventEmitter.pass1,
        getLs, setLs, firedCount]
    · have hb' : ¬("__before__" = name) := fun h => hb h.symm
      have ha' : ¬("__after__" = name) := fun h => ha h.symm
      simp [EventEmitter.addEventListener, EventEmitter.emit, EventEmitter.pass1,
        getLs, setLs, firedCount, hb, ha, hb', ha']

/-! ## C9 — error atomicity of post-before-record operations -/

/-- Conclusion of C9 at given arguments: each of the three post-first
operations, attempted while no endpoint is captured, rejects, posts
nothing, and leaves the top-level pending-request table exactly as it
was. -/
def C9Prop (s : ValuState) (i j : Intent) (n v : Value) (g : String) : Prop :=
  (sendIntent s i).2 = .threw ∧
  (sendIntent s i).1.requests = s.requests ∧
  postedOf (sendIntent s i).1 = postedOf s ∧
  (callService s j).2 = .threw ∧
  (callService s j).1.requests = s.requests ∧
  postedOf (callService s j).1 = postedOf s ∧
  (registerApiPointer s n v g).2 = .threw ∧
  (registerApiPointer s n v g).1.requests = s.requests ∧
  postedOf (registerApiPointer s n v g).1 = postedOf s

/-- C9: sendIntent, callService and the getModule registration step post
the outbound message before recording any waiter; if posting throws (no
channel endpoint captured yet) the returned promise rejects and the
top-level pending-request table is left exactly as before the call. -/
theorem C9_post_failure_is_atomic (s : ValuState) (i j : Intent)
    (n v : Value) (g : String) (hd : s.valuApplication = none) :
    C9Prop s i j n v g := by
  refine ⟨?_, ?_, ?_, ?_, ?_, ?_, ?_, ?_, ?_⟩ <;>
    simp [sendIntent, callService, registerApiPointer, createDeferred,
      freshId, postToValuApp, hd, postedOf]

/-- Witness for C9 at the freshly constructed (disconnected) client. -/
theorem C9_witness :
    ValuState.init.valuApplication = none ∧
    C9Prop ValuState.init (Intent.ofArgs (.vStr "a") .vUndefined .vUndefined)
      (Intent.ofArgs (.vStr "b") .vUndefined .vUndefined) (.vStr "chat") .vUndefined "g" :=
  ⟨rfl, C9_post_failure_is_atomic ValuState.init _ _ _ _ "g" rfl⟩

/-! ## C6 — console commands resolve with the host's payload verbatim -/

/-- Conclusion of C6 at given arguments: the console operation returns a
promise, and the host's `api:run-console-completed` reply resolves (never
rejects) it with exactly the carried payload, freeing the identifier. -/
def C6Prop (s : ValuState) (command payload : Value) : Prop :=
  (runConsoleCommand s command).2 = .pending s.counter ∧
  settledOf (handleParentMessage (runConsoleCommand s command).1
      ⟨0, "", "valuApi", "api:run-console-completed", payload, some s.counter⟩)
    = settledOf (runConsoleCommand s command).1 ++ [(s.counter, .ok payload)] ∧
  lookupA (handleParentMessage (runConsoleCommand s command).1
      ⟨0, "", "valuApi", "api:run-console-completed", payload, some s.counter⟩).requests
    s.counter = none

/-- C6: for every console command issued on a connected client, the reply
handler resolves the awaited operation with exactly the payload the host
returned — success value or human-readable error text alike — and never
rejects it. -/
theorem C6_console_resolves_with_host_payload (s : ValuState) (ep : Endpoint)
    (command payload : Value) (hc : s.valuApplication = some ep) :
    C6Prop s command payload := by
  refine ⟨?_, ?_, ?_⟩ <;>
    simp [C6Prop, runConsoleCommand, createDeferred, freshId, postToValuApp, hc,
      handleParentMessage, handleConsoleCompleted, settleTrace, settledOf,
      settledFrom_append, settledFrom, lookupA_insertA_self, lookupA_removeA_self]

/-- Witness for C6: a connected client, command string, and the error-text
payload from the specification's own example. -/
theorem C6_witness :
    ({ ValuState.init with
        valuApplication := some ⟨.vStr "app", 0, "https://valu"⟩ } : ValuState).valuApplication
      = some ⟨.vStr "app", 0, "https://valu"⟩ ∧
    C6Prop { ValuState.init with
        valuApplication := some ⟨.vStr "app", 0, "https://valu"⟩ }
      (.vStr "bad") (.vStr "ERROR: unknown command") :=
  ⟨rfl, C6_console_resolves_with_host_payload _ _ _ _ rfl⟩

/-! ## C3 — the endpoint is NOT immutable after the first readiness signal -/

/-- A first readiness message from host A. -/
def readyEvA : InEvent :=
  ⟨1, "https://host-a", "valuApi", "api:ready",
    .vObj [("applicationId", .vStr "app"), ("action", .vStr "open"),
           ("params", .vObj [])], none⟩

/-- A second readiness message from a different source and origin. -/
def readyEvB : InEvent :=
  ⟨2, "https://host-b", "valuApi", "api:ready",
    .vObj [("applicationId", .vStr "app"), ("action", .vStr "open"),
           ("params", .vObj [])], none⟩

/-- C3 counterexample: after a first readiness message captured origin
"https://host-a", a second readiness message changes the captured endpoint
to origin "https://host-b" — the endpoint is not immutable and a second
readiness message does alter it, contrary to the claim. -/
theorem C3_counterexample_second_ready_alters_endpoint :
    ((handleParentMessage ValuState.init readyEvA).valuApplication.map
        Endpoint.origin = some "https://host-a") ∧
    ((handleParentMessage (handleParentMessage ValuState.init readyEvA)
        readyEvB).valuApplication.map Endpoint.origin = some "https://host-b") ∧
    ("https://host-a" : String) ≠ "https://host-b" :=
  ⟨rfl, rfl, by decide⟩

/-- C3 amended: the channel endpoint is captured from every readiness
message — the first readiness signal establishes it, and any later
readiness message overwrites it with that message's source and origin. -/
theorem C3_amended_every_ready_recaptures_endpoint (s : ValuState)
    (e : InEvent) (ht : e.target = "valuApi") (hn : e.name = "api:ready") :
    (handleParentMessage s e).valuApplication
      = some ⟨e.message.getField "applicationId", e.source, e.origin⟩ := by
  simp [handleParentMessage, ht, hn, handleReady, emitValu, apply_ite
    ValuState.valuApplication]

/-- Witness for the amended C3 at the concrete second readiness message. -/
theorem C3_amended_witness :
    readyEvB.target = "valuApi" ∧ readyEvB.name = "api:ready" ∧
    (handleParentMessage (handleParentMessage ValuState.init readyEvA)
        readyEvB).valuApplication
      = some ⟨readyEvB.message.getField "applicationId", readyEvB.source,
              readyEvB.origin⟩ :=
  ⟨rfl, rfl, C3_amended_every_ready_recaptures_endpoint _ readyEvB rfl rfl⟩

/-! ## C7 — setApplication replays the last launch intent -/

/-- C7: calling setApplication after a readiness (launch-intent) message has
been processed immediately invokes the newly bound shell's onCreate with an
Intent equal to the one derived from that launch message. -/
theorem C7_setApplication_replays_launch_intent (s : ValuState) (e : InEvent)
    (ht : e.target = "valuApi") (hn : e.name = "api:ready") :
    (setApplication (handleParentMessage s e)).trace
      = (handleParentMessage s e).trace
        ++ [.shellOnCreate (intentOf e.message)] := by
  simp [handleParentMessage, ht, hn, handleReady, emitValu, setApplication]

/-- Witness for C7 at the concrete readiness message. -/
theorem C7_witness :
    readyEvA.target = "valuApi" ∧ readyEvA.name = "api:ready" ∧
    (setApplication (handleParentMessage ValuState.init readyEvA)).trace
      = (handleParentMessage ValuState.init readyEvA).trace
        ++ [.shellOnCreate (intentOf readyEvA.message)] :=
  ⟨rfl, rfl, C7_setApplication_replays_launch_intent ValuState.init readyEvA rfl rfl⟩


/-! ## C2 — new-intent: the shell is invoked but its result is discarded -/

/-- C2 (evaluating the code): handling `api:new-intent` constructs the
Intent from the payload and invokes the bound shell's onNewIntent, and does
nothing else — the full resulting state is the old state plus exactly that
one shell invocation.  In particular no message is posted back to the host
and no waiter is settled: the shell's return value is discarded, never
surfaced to whoever originated the intent. -/
theorem C2_new_intent_result_is_discarded (s : ValuState) (e : InEvent)
    (ht : e.target = "valuApi") (hn : e.name = "api:new-intent")
    (hb : s.appBound = true) :
    handleParentMessage s e
      = { s with trace := s.trace ++ [.shellOnNewIntent (intentOf e.message)] } := by
  simp [handleParentMessage, ht, hn, handleNewIntent, hb]

/-- A client with a bound application shell. -/
def boundInit : ValuState :=
  { ValuState.init with appBound := true }

/-- An inbound intent delivered while the app is running. -/
def newIntentEv : InEvent :=
  ⟨1, "https://host-a", "valuApi", "api:new-intent",
    .vObj [("applicationId", .vStr "caller"), ("action", .vStr "ping"),
           ("params", .vObj [])], none⟩

/-- Witness for C2 at a concrete bound-shell state and intent message. -/
theorem C2_witness :
    newIntentEv.target = "valuApi" ∧ newIntentEv.name = "api:new-intent" ∧
    boundInit.appBound = true ∧
    handleParentMessage boundInit newIntentEv
      = { boundInit with trace := boundInit.trace
            ++ [.shellOnNewIntent (intentOf newIntentEv.message)] } :=
  ⟨rfl, rfl, rfl, C2_new_intent_result_is_discarded boundInit newIntentEv rfl rfl rfl⟩

/-! ## C10 — order of the readiness-handling steps -/

/-- Conclusion of C10 at given arguments: handling a readiness message
appends to the trace, in this order: the endpoint capture, the emission of
the readiness event (whose subscribers each receive the empty argument
list), the bound shell's onCreate with the launch Intent, and only then the
recording of that Intent as the last intent.  The two surrounding entries
are the emitter's internal meta-event passes, empty by hypothesis. -/
def C10Prop (s : ValuState) (e : InEvent) : Prop :=
  (handleParentMessage s e).trace = s.trace ++
    [ .captureEndpoint e.source e.origin,
      .emitPassA "__before__" [.vStr "api:ready"] [],
      .emitPassA "api:ready" []
        ((getLs s.emitter.events "api:ready").map fun l => (l.lid, ([] : List Value))),
      .emitPassA "__after__" [.vStr "api:ready"] [],
      .shellOnCreate (intentOf e.message),
      .rememberIntent (intentOf e.message) ]

/-- C10: when a readiness message is handled on a client with a bound shell
(and no meta-event listeners), the steps occur in order: endpoint capture,
readiness event emitted with no arguments to every subscriber, shell
onCreate with the launch Intent, and only then the Intent recorded for
later replay. -/
theorem C10_ready_steps_in_order (s : ValuState) (e : InEvent)
    (ht : e.target = "valuApi") (hn : e.name = "api:ready")
    (hb : s.appBound = true)
    (hm1 : getLs s.emitter.events "__before__" = [])
    (hm2 : getLs s.emitter.events "__after__" = []) :
    C10Prop s e := by
  have hd1 : ¬(("api:ready" : String) = "__before__") := by decide
  have hd2 : ¬(("__after__" : String) = "__before__") := by decide
  have hd3 : ¬(("__after__" : String) = "api:ready") := by decide
  simp [C10Prop, handleParentMessage, ht, hn, handleReady, emitValu,
    EventEmitter.emit, EventEmitter.pass1, hb, hm1, hm2,
    getLs_setLs_ne _ _ _ _ hd1, getLs_setLs_ne _ _ _ _ hd2,
    getLs_setLs_ne _ _ _ _ hd3]

/-- A client with a bound shell and one persistent readiness subscriber. -/
def busInit : ValuState :=
  { ValuState.init with
      appBound := true
      emitter := ⟨[("api:ready", [⟨7, false⟩])]⟩ }

/-- Witness for C10: a bound shell, one readiness subscriber, and the
concrete launch message. -/
theorem C10_witness :
    readyEvA.target = "valuApi" ∧ readyEvA.name = "api:ready" ∧
    busInit.appBound = true ∧
    getLs busInit.emitter.events "__before__" = [] ∧
    getLs busInit.emitter.events "__after__" = [] ∧
    C10Prop busInit readyEvA :=
  ⟨rfl, rfl, rfl, rfl, rfl,
    C10_ready_steps_in_order busInit readyEvA rfl rfl rfl rfl rfl⟩

/-! ## C4 — replies with unknown identifiers are dropped in isolation -/

/-- Conclusion of C4 at given arguments: (1) the reply handler leaves the
whole state unchanged except for one appended diagnostic — so the pending
table, every waiter, every handle and every settlement are untouched and no
fault is raised; (2) likewise for a function-call reply reaching a handle's
own completion routine with an identifier not in its per-call table. -/
def C4Prop (s : ValuState) (e : InEvent) : Prop :=
  (∃ d, handleParentMessage s e = { s with trace := s.trace ++ [.logged d] }) ∧
  (∀ h hs rid res, lookupA s.handles h = some hs →
    hs.apiCalls.contains rid = false →
    ∃ d, postRunResult s h rid res = { s with trace := s.trace ++ [.logged d] })

/-- C4: an inbound console / function-call / pointer-created reply whose
request identifier is not currently pending is dropped with only a
diagnostic: it raises no fault and does not alter the state of, or signal
completion to, any other pending request. -/
theorem C4_unknown_reply_is_isolated (s : ValuState) (e : InEvent)
    (ht : e.target = "valuApi")
    (hn : e.name = "api:run-console-completed" ∨ e.name = "api:run-completed"
       ∨ e.name = "api:pointer-created")
    (hmiss : (e.requestId.bind fun rid => lookupA s.requests rid) = none) :
    C4Prop s e := by
  constructor
  · rcases hn with hn | hn | hn
    · cases hr : e.requestId with
      | none =>
        exact ⟨"Failed to locate console request with Id: undefined",
          by simp [handleParentMessage, ht, hn, hr, handleConsoleCompleted, logT]⟩
      | some rid =>
        rw [hr] at hmiss
        simp only [Option.some_bind] at hmiss
        exact ⟨"Failed to locate console request with Id: " ++ toString rid,
          by simp [handleParentMessage, ht, hn, hr, handleConsoleCompleted,
            hmiss, logT, removeA_of_lookupA_none _ _ hmiss]⟩
    · cases hr : e.requestId with
      | none =>
        exact ⟨"Failed to find Api Pointer for requestId: undefined",
          by simp [handleParentMessage, ht, hn, hr, handleRunCompleted, logT]⟩
      | some rid =>
        rw [hr] at hmiss
        simp only [Option.some_bind] at hmiss
        exact ⟨"Failed to find Api Pointer for requestId: " ++ toString rid,
          by simp [handleParentMessage, ht, hn, hr, handleRunCompleted,
            hmiss, logT]⟩
    · cases hr : e.requestId with
      | none =>
        exact ⟨"Failed to locate pointer create request with Id: undefined",
          by simp [handleParentMessage, ht, hn, hr, handlePointerCreated, logT]⟩
      | some rid =>
        rw [hr] at hmiss
        simp only [Option.some_bind] at hmiss
        exact ⟨"Failed to locate pointer create request with Id: " ++ toString rid,
          by simp [handleParentMessage, ht, hn, hr, handlePointerCreated,
            hmiss, logT]⟩
  · intro h hs rid res hh hc
    have hc' : rid ∉ hs.apiCalls := by simpa using hc
    exact ⟨"Failed to postRunResult for " ++ toString rid,
      by simp [postRunResult, hh, hc, hc', logT]⟩

/-- A client with one pending console waiter and one handle with one
outstanding call. -/
def tableState : ValuState :=
  { ValuState.init with
      requests := [(5, .deferredReq)]
      handles := [(0, ⟨.vStr "chat", .vNat 1, "guid-0", [6]⟩)] }

/-- A console reply whose identifier is pending nowhere. -/
def lateReplyEv : InEvent :=
  ⟨9, "https://host-a", "valuApi", "api:run-console-completed",
    .vStr "late", some 99⟩

/-- Witness for C4 at the concrete late reply. -/
theorem C4_witness :
    lateReplyEv.target = "valuApi" ∧
    (lateReplyEv.requestId.bind fun rid => lookupA tableState.requests rid) = none ∧
    C4Prop tableState lateReplyEv :=
  ⟨rfl, rfl,
    C4_unknown_reply_is_isolated tableState lateReplyEv rfl (Or.inl rfl) rfl⟩

/-! ## C5 — the host-assigned version wins -/

/-- The version a registered handle reports (`APIPointer.version` getter). -/
def handleVersion (s : ValuState) (h : Nat) : Option Value :=
  (lookupA s.handles h).map HandleState.version

/-- C5: `getModule("x", 2)` answered by a pointer-created reply carrying
`{version: 3}` yields a handle whose reported version is 3 — the
host-assigned version from the reply — and not the requested 2. -/
theorem C5_host_assigned_version_wins (s : ValuState) (ep : Endpoint)
    (hc : s.valuApplication = some ep) :
    (getApiWithReply s (.vStr "x") (.vNat 2) (.vObj [("version", .vNat 3)])).2
      = .ok s.nextHandle ∧
    handleVersion
      (getApiWithReply s (.vStr "x") (.vNat 2) (.vObj [("version", .vNat 3)])).1
      s.nextHandle = some (.vNat 3) ∧
    ¬(Value.vNat 3 = Value.vNat 2) := by
  refine ⟨?_, ?_, by simp⟩ <;>
    simp [getApiWithReply, getApiSend, guid4, registerApiPointer,
      createDeferred, freshId, postToValuApp, hc, handleParentMessage,
      handlePointerCreated, settleTrace, lookupA_insertA_self,
      getApiResume, Value.getField, lookupField, Value.truthy,
      newAPIPointer, handleVersion]

/-- A connected client (endpoint already captured). -/
def connInit : ValuState :=
  { ValuState.init with valuApplication := some ⟨.vStr "app", 0, "https://valu"⟩ }

/-- Witness for C5 at the connected client. -/
theorem C5_witness :
    connInit.valuApplication = some ⟨.vStr "app", 0, "https://valu"⟩ ∧
    ((getApiWithReply connInit (.vStr "x") (.vNat 2)
        (.vObj [("version", .vNat 3)])).2 = .ok connInit.nextHandle ∧
      handleVersion (getApiWithReply connInit (.vStr "x") (.vNat 2)
        (.vObj [("version", .vNat 3)])).1 connInit.nextHandle
        = some (.vNat 3) ∧
      ¬(Value.vNat 3 = Value.vNat 2)) :=
  ⟨rfl, C5_host_assigned_version_wins connInit _ rfl⟩

/-! ## C1 — the registered guid is the handle's guid, used by every call -/

/-- The guid a registered handle carries, as seen in a state. -/
def guidMap (s : ValuState) (h : Nat) : Option String :=
  (lookupA s.handles h).map HandleState.guid

theorem guidMap_congr (a b : ValuState) (h : Nat) (hh : a.handles = b.handles) :
    guidMap a h = guidMap b h := by
  simp [guidMap, hh]

theorem guidMap_postRunResult (s : ValuState) (hp rid : Nat) (res : Value)
    (h : Nat) : guidMap (postRunResult s hp rid res) h = guidMap s h := by
  unfold postRunResult guidMap
  cases hl : lookupA s.handles hp with
  | none => rfl
  | some hs =>
    by_cases hmem : rid ∈ hs.apiCalls
    · by_cases hg : h = hp
      · subst hg
        simp [hmem, settleTrace, lookupA_insertA_self, hl,
          apply_ite ValuState.handles]
      · simp [hmem, settleTrace, lookupA_insertA_ne _ _ _ _ hg,
          apply_ite ValuState.handles]
    · simp [hmem, logT]

theorem handles_handleReady (s : ValuState) (e : InEvent) :
    (handleReady s e).handles = s.handles := by
  simp [handleReady, emitValu, apply_ite ValuState.handles]

theorem handles_handleTrigger (s : ValuState) (e : InEvent) :
    (handleTrigger s e).handles = s.handles := by
  simp [handleTrigger, emitValu, apply_ite ValuState.handles]

theorem handles_handleNewIntent (s : ValuState) (e : InEvent) :
    (handleNewIntent s e).handles = s.handles := by
  simp [handleNewIntent, apply_ite ValuState.handles]

theorem handles_handleConsoleCompleted (s : ValuState) (e : InEvent) :
    (handleConsoleCompleted s e).handles = s.handles := by
  unfold handleConsoleCompleted
  split
  · simp [logT]
  · split <;> simp [settleTrace, logT, faultT]

theorem handles_handlePointerCreated (s : ValuState) (e : InEvent) :
    (handlePointerCreated s e).handles = s.handles := by
  unfold handlePointerCreated
  split
  · simp [logT]
  · split <;> simp [settleTrace, logT, faultT]

theorem guidMap_handleRunCompleted (s : ValuState) (e : InEvent) (h : Nat) :
    guidMap (handleRunCompleted s e) h = guidMap s h := by
  unfold handleRunCompleted
  split
  · simp [guidMap, logT]
  · split
    · rename_i x1 rid hq1 x2 hp hq2
      exact Eq.trans (guidMap_congr _ (postRunResult s hp rid e.message) _ (by simp))
        (guidMap_postRunResult s hp rid e.message h)
    · simp [guidMap, faultT]
    · simp [guidMap, logT]

/-- No inbound message changes the guid any registered handle carries. -/
theorem guidMap_handleParentMessage (s : ValuState) (e : InEvent) (h : Nat) :
    guidMap (handleParentMessage s e) h = guidMap s h := by
  unfold handleParentMessage
  by_cases h0 : e.target = "valuApi"
  · by_cases h1 : e.name = "api:ready"
    · simp [h0, h1, guidMap, handles_handleReady]
    · by_cases h2 : e.name = "api:trigger"
      · simp [h0, h1, h2, guidMap, handles_handleTrigger]
      · by_cases h3 : e.name = "api:new-intent"
        · simp [h0, h1, h2, h3, guidMap, handles_handleNewIntent]
        · by_cases h4 : e.name = "api:run-console-completed"
          · simp [h0, h1, h2, h3, h4, guidMap, handles_handleConsoleCompleted]
          · by_cases h5 : e.name = "api:run-completed"
            · simp [h0, h1, h2, h3, h4, h5, guidMap_handleRunCompleted]
            · by_cases h6 : e.name = "api:pointer-created"
              · simp [h0, h1, h2, h3, h4, h5, h6, guidMap,
                  handles_handlePointerCreated]
              · simp [h0, h1, h2, h3, h4, h5, h6]
  · simp [h0]

/-- Issuing a function call never changes the guid any handle carries. -/
theorem guidMap_runHandle (s : ValuState) (h0 : Nat) (fn p : Value) (h : Nat) :
    guidMap (runHandle s h0 fn p).1 h = guidMap s h := by
  unfold runHandle
  cases hl : lookupA s.handles h0 with
  | none => rfl
  | some hs =>
    cases hv : s.valuApplication with
    | none =>
      by_cases hg : h = h0
      · subst hg
        simp [createDeferred, freshId, postToValuApp, hv,
          lookupA_insertA_self, hl, guidMap]
      · simp [createDeferred, freshId, postToValuApp, hv,
          lookupA_insertA_ne _ _ _ _ hg, guidMap]
    | some ep =>
      by_cases hg : h = h0
      · subst hg
        simp [createDeferred, freshId, postToValuApp, hv,
          lookupA_insertA_self, hl, guidMap]
      · simp [createDeferred, freshId, postToValuApp, hv,
          lookupA_insertA_ne _ _ _ _ hg, guidMap]

/-- Conclusion of C1 at given arguments: the guid sent in the registration
request is the guid of the returned handle, every function call issued
through that handle posts that same guid as `apiPointerId`, and no inbound
message or further call ever changes it. -/
def C1Prop (s : ValuState) (n v reply : Value) : Prop :=
  postedOf (getApiSend s n v).1
    = postedOf s ++ [.createPointer (getApiSend s n v).2.1 n v (s.counter + 1)] ∧
  (getApiWithReply s n v reply).2 = .ok s.nextHandle ∧
  guidMap (getApiWithReply s n v reply).1 s.nextHandle
    = some (getApiSend s n v).2.1 ∧
  (∀ fn p,
    (runHandle (getApiWithReply s n v reply).1 s.nextHandle fn p).2
      = .pending (s.counter + 2) ∧
    postedOf (runHandle (getApiWithReply s n v reply).1 s.nextHandle fn p).1
      = postedOf (getApiWithReply s n v reply).1
        ++ [.run (getApiSend s n v).2.1 (s.counter + 2) fn p]) ∧
  (∀ st : ValuState, ∀ ev : InEvent,
    guidMap (handleParentMessage st ev) s.nextHandle = guidMap st s.nextHandle) ∧
  (∀ st : ValuState, ∀ fn p,
    guidMap (runHandle st s.nextHandle fn p).1 s.nextHandle
      = guidMap st s.nextHandle)

/-- C1: on a successful getModule round trip, the module-instance id sent
in the create-pointer registration request is exactly the guid the returned
handle carries; the handle uses that id in every function-call request it
issues; and the id is stable for the handle's lifetime. -/
theorem C1_registration_guid_is_handle_guid (s : ValuState) (ep : Endpoint)
    (n v reply : Value) (hc : s.valuApplication = some ep)
    (hok : (reply.getField "error").truthy = false) :
    C1Prop s n v reply := by
  refine ⟨?_, ?_, ?_, ?_,
    fun st ev => guidMap_handleParentMessage st ev s.nextHandle,
    fun st fn p => guidMap_runHandle st s.nextHandle fn p s.nextHandle⟩
  · simp [getApiSend, guid4, registerApiPointer, createDeferred, freshId,
      postToValuApp, hc, postedOf, postedFrom_append, postedFrom]
  · simp [getApiWithReply, getApiSend, guid4, registerApiPointer,
      createDeferred, freshId, postToValuApp, hc, handleParentMessage,
      handlePointerCreated, settleTrace, lookupA_insertA_self,
      getApiResume, hok, newAPIPointer]
  · simp [getApiWithReply, getApiSend, guid4, registerApiPointer,
      createDeferred, freshId, postToValuApp, hc, handleParentMessage,
      handlePointerCreated, settleTrace, lookupA_insertA_self,
      getApiResume, hok, newAPIPointer, guidMap]
  · intro fn p
    constructor <;>
      simp [getApiWithReply, getApiSend, guid4, registerApiPointer,
        createDeferred, freshId, postToValuApp, hc, handleParentMessage,
        handlePointerCreated, settleTrace, lookupA_insertA_self,
        getApiResume, hok, newAPIPointer, runHandle, postedOf,
        postedFrom_append, postedFrom]

/-- Witness for C1 at the connected client and an error-free reply. -/
theorem C1_witness :
    connInit.valuApplication = some ⟨.vStr "app", 0, "https://valu"⟩ ∧
    ((Value.vObj [("version", .vNat 1)]).getField "error").truthy = false ∧
    C1Prop connInit (.vStr "chat") (.vNat 1) (.vObj [("version", .vNat 1)]) :=
  ⟨rfl, rfl,
    C1_registration_guid_is_handle_guid connInit _ _ _ _ rfl rfl⟩

end Valu
